import Mathlib

/-!
Shallow embedding of the CuraQ MCP server tool-call dispatcher
(src/index.ts).  The dispatcher receives a tool name and a loosely typed
argument bag, validates arguments, issues at most one HTTP call to the
backend, and renders a display string.  JavaScript runtime behaviour that
the dispatcher relies on (truthiness, the logical-or default idiom,
Math.min number coercion, strict equality, encodeURIComponent,
JSON.stringify key omission) is embedded explicitly.  Number coercion of
strings follows the JavaScript ToNumber string grammar (decimal
literals with fraction and exponent, hex, octal and binary integer
literals, Infinity, the full whitespace set), with finite values
carried exactly as rationals.
-/

namespace CuraQ

/-- A JavaScript runtime value as it can appear in a tool argument bag or
a parsed JSON body: a (finite integer) number, NaN, a string, a boolean
or null.  Absence of a value (undefined) is modelled by Option. -/
inductive JSVal where
  | num : Int → JSVal
  | nan : JSVal
  | str : String → JSVal
  | bool : Bool → JSVal
  | null : JSVal
deriving DecidableEq, Repr

/-- JavaScript truthiness: 0, NaN, the empty string, false and null are
falsy, everything else is truthy. -/
def JSVal.truthy : JSVal → Bool
  | .num n => n != 0
  | .nan => false
  | .str s => s != ""
  | .bool b => b
  | .null => false

/-- Truthiness of a possibly absent value (undefined is falsy). -/
def truthyOpt (o : Option JSVal) : Bool :=
  match o with
  | some v => v.truthy
  | none => false

/-- A JavaScript number: a finite value (carried exactly as a
rational), an infinity with its sign (true means negative), or NaN. -/
inductive JSNum where
  | rat : ℚ → JSNum
  | inf : Bool → JSNum
  | nan : JSNum
deriving DecidableEq, Repr

/-- JavaScript string whitespace as stripped by ToNumber: WhiteSpace
(tab, vertical tab, form feed, space, no-break space, zero-width
no-break space and the Unicode space separators) and LineTerminator
(line feed, carriage return, line separator, paragraph separator). -/
def isJsWhitespace (c : Char) : Bool :=
  decide ((9 ≤ c.toNat ∧ c.toNat ≤ 13) ∨ c.toNat = 32 ∨ c.toNat = 160 ∨
    c.toNat = 0x1680 ∨ (0x2000 ≤ c.toNat ∧ c.toNat ≤ 0x200A) ∨
    c.toNat = 0x2028 ∨ c.toNat = 0x2029 ∨ c.toNat = 0x202F ∨
    c.toNat = 0x205F ∨ c.toNat = 0x3000 ∨ c.toNat = 0xFEFF)

/-- Strip leading and trailing whitespace from a character list. -/
def trimChars (cs : List Char) : List Char :=
  ((cs.dropWhile isJsWhitespace).reverse.dropWhile isJsWhitespace).reverse

/-- Numeric value of a digit character below the given base (letters in
either case), none for any other character. -/
def digitValBase (base : Nat) (c : Char) : Option Nat :=
  let v :=
    if 48 ≤ c.toNat ∧ c.toNat ≤ 57 then some (c.toNat - 48)
    else if 97 ≤ c.toNat ∧ c.toNat ≤ 122 then some (c.toNat - 87)
    else if 65 ≤ c.toNat ∧ c.toNat ≤ 90 then some (c.toNat - 55)
    else none
  match v with
  | some d => if d < base then some d else none
  | none => none

/-- Value of a nonempty digit list in the given base, none when the
list is empty or holds a character that is not a digit of the base. -/
def digitsValBase (base : Nat) (cs : List Char) : Option Nat :=
  if cs = [] then none
  else
    cs.foldl (fun acc c =>
      match acc, digitValBase base c with
      | some a, some d => some (a * base + d)
      | _, _ => none) (some 0)

/-- Decimal value of a digit list (characters already known to be
decimal digits). -/
def decDigitsVal (cs : List Char) : Nat :=
  cs.foldl (fun a c => a * 10 + (c.toNat - 48)) 0

/-- The StrDecimalLiteral body of the ToNumber grammar, sign already
consumed: decimal digits with an optional fraction part and an optional
exponent part, at least one mantissa digit, nothing left over.  Returns
the exact rational value. -/
def parseDecimalChars (cs : List Char) : Option ℚ :=
  let (ip, r1) := cs.span Char.isDigit
  let (fp, r2) :=
    match r1 with
    | '.' :: rest => rest.span Char.isDigit
    | _ => ([], r1)
  if ip = [] ∧ fp = [] then none
  else
    let mant : Nat := decDigitsVal (ip ++ fp)
    let fracLen : Nat := fp.length
    match r2 with
    | [] => some ((mant : ℚ) * (10 : ℚ) ^ (-(fracLen : ℤ)))
    | e :: rest =>
      if e = 'e' ∨ e = 'E' then
        let (esign, edigits) :=
          match rest with
          | '-' :: t => ((-1 : ℤ), t)
          | '+' :: t => ((1 : ℤ), t)
          | t => ((1 : ℤ), t)
        if edigits ≠ [] ∧ edigits.all Char.isDigit then
          some ((mant : ℚ) *
            (10 : ℚ) ^ (esign * (decDigitsVal edigits : ℤ) - (fracLen : ℤ)))
        else none
      else none

/-- A signed decimal tail of the ToNumber grammar: the literal word
Infinity, or a decimal literal; anything else is NaN. -/
def parseSignedTail (neg : Bool) (cs : List Char) : JSNum :=
  if cs = ['I', 'n', 'f', 'i', 'n', 'i', 't', 'y'] then .inf neg
  else
    match parseDecimalChars cs with
    | some q => .rat (if neg then -q else q)
    | none => .nan

/-- JavaScript ToNumber on a string: surrounding whitespace is trimmed,
the empty remainder converts to 0, a leading sign admits only a decimal
literal or Infinity, the 0x/0o/0b prefixes admit unsigned hex, octal
and binary digits, and anything unparseable converts to NaN.  Values
are exact rationals (a literal such as 1e1000 that a double would round
to Infinity stays finite here; no theorem quantifies over that
range). -/
def stringToNumber (s : String) : JSNum :=
  match trimChars s.toList with
  | [] => .rat 0
  | '-' :: rest => parseSignedTail true rest
  | '+' :: rest => parseSignedTail false rest
  | '0' :: c :: rest =>
    if c = 'x' ∨ c = 'X' then
      match digitsValBase 16 rest with
      | some n => .rat (n : ℚ)
      | none => .nan
    else if c = 'o' ∨ c = 'O' then
      match digitsValBase 8 rest with
      | some n => .rat (n : ℚ)
      | none => .nan
    else if c = 'b' ∨ c = 'B' then
      match digitsValBase 2 rest with
      | some n => .rat (n : ℚ)
      | none => .nan
    else parseSignedTail false ('0' :: c :: rest)
  | cs => parseSignedTail false cs

/-- JavaScript ToNumber. -/
def JSVal.toNumber : JSVal → JSNum
  | .num n => .rat (n : ℚ)
  | .nan => .nan
  | .str s => stringToNumber s
  | .bool b => .rat (if b then 1 else 0)
  | .null => .rat 0

/-- Math.min on two numbers: NaN propagates, negative infinity wins,
positive infinity yields the other argument. -/
def mathMin (a b : JSNum) : JSNum :=
  match a, b with
  | .nan, _ => .nan
  | _, .nan => .nan
  | .inf s, .inf t => .inf (s || t)
  | .inf s, .rat q => if s then .inf true else .rat q
  | .rat q, .inf s => if s then .inf true else .rat q
  | .rat x, .rat y => .rat (min x y)

/-- Multiplicity of p in n, computed with explicit fuel. -/
def divOut (p : Nat) : Nat → Nat → Nat
  | 0, _ => 0
  | fuel + 1, n =>
    if 2 ≤ p ∧ n ≠ 0 ∧ p ∣ n then divOut p fuel (n / p) + 1 else 0

/-- Exponent of the smallest power of ten the denominator divides (for
a denominator of the form 2^a*5^b, the length of the value's finite
decimal expansion). -/
def pow25Exp (den : Nat) : Nat := max (divOut 2 den den) (divOut 5 den den)

/-- Left-pad a digit string with zeros to the given length. -/
def padZeros (s : String) (k : Nat) : String :=
  String.mk (List.replicate (k - s.length) '0') ++ s

/-- Template-literal rendering of a finite number: an integer prints as
an integer, a non-integer as sign, integer part, point and fraction
digits — exactly how JavaScript prints every value arising from the
literals the theorems quantify over (the exponential display JS
switches to at magnitudes at or above 1e21, and double rounding of
extreme literals, lie outside every theorem's quantified range and are
not modelled). -/
def ratRender (q : ℚ) : String :=
  if q.den = 1 then toString q.num
  else
    let k := pow25Exp q.den
    let scaled := q.num.natAbs * 10 ^ k / q.den
    let sign := if q.num < 0 then "-" else ""
    sign ++ toString (scaled / 10 ^ k) ++ "." ++
      padZeros (toString (scaled % 10 ^ k)) k

/-- Template-literal rendering of a number (NaN prints as NaN, the
infinities as Infinity and -Infinity). -/
def JSNum.render : JSNum → String
  | .rat q => ratRender q
  | .inf neg => if neg then "-Infinity" else "Infinity"
  | .nan => "NaN"

/-- The JavaScript idiom `x || d`: the left value when it is present and
truthy, the default otherwise. -/
def jsOr (a : Option JSVal) (b : JSVal) : JSVal :=
  match a with
  | some v => if v.truthy then v else b
  | none => b

/-- Template-literal rendering of a possibly absent value (undefined
prints as the word undefined, as in JavaScript string interpolation). -/
def JSVal.toDisplayString : JSVal → String
  | .num n => toString n
  | .nan => "NaN"
  | .str s => s
  | .bool b => if b then "true" else "false"
  | .null => "null"

/-- Interpolation of a possibly absent value. -/
def displayOpt (o : Option JSVal) : String :=
  match o with
  | some v => v.toDisplayString
  | none => "undefined"

/-- The loosely typed argument bag of a tool invocation.  An absent
`arguments` object is the empty list. -/
def Args := List (String × JSVal)

/-- Property access `args?.k`: the first binding of the key, none when
the key is absent. -/
def Args.get : Args → String → Option JSVal
  | [], _ => none
  | (k, v) :: rest, key => if k = key then some v else Args.get rest key

/-- Uppercase hexadecimal digit for a value below 16. -/
def hexUpper (n : Nat) : Char :=
  if n < 10 then Char.ofNat (48 + n) else Char.ofNat (55 + n)

/-- Percent-encoding of one byte. -/
def percentByte (b : UInt8) : String :=
  "%" ++ String.singleton (hexUpper (b.toNat / 16)) ++
    String.singleton (hexUpper (b.toNat % 16))

/-- The characters encodeURIComponent leaves unescaped: ASCII
alphanumerics and - _ . ! ~ * ( ) and the apostrophe (code 39). -/
def isUnescapedURIChar (c : Char) : Bool :=
  c.isAlphanum || c = '-' || c = '_' || c = '.' || c = '!' || c = '~' ||
    c = '*' || c.toNat = 39 || c = '(' || c = ')'

/-- JavaScript encodeURIComponent: unescaped characters pass through,
every other character is replaced by the percent-encoding of its UTF-8
bytes. -/
def encodeURIComponent (s : String) : String :=
  String.join (s.toList.map (fun c =>
    if isUnescapedURIChar c then String.singleton c
    else String.join (((String.singleton c).toUTF8.toList).map percentByte)))

/-- An article as deserialized from the backend (the Article interface in
the source; fields the renderer never reads are kept as optional). -/
structure Article where
  id : String
  url : String
  title : String
  summary : String
  tags : List String
  reading_time_minutes : Int
  content_type : String
  priority : Option Int
  created_at : Option String
  status : Option String
  date : Option String
deriving DecidableEq, Repr

/-- An event-history entry of an article. -/
structure ArticleEvent where
  action : String
  created_at : String
deriving DecidableEq, Repr

/-- The parsed JSON error body of a failed save_article call, with its
optional error and message string fields. -/
structure SaveErrorBody where
  error : Option String
  message : Option String
deriving DecidableEq, Repr

/-- The parsed JSON success body of save_article; every field is kept
optional because the dispatcher reads each with JavaScript semantics
(an absent field is undefined, which is falsy and interpolates as the
word undefined). -/
structure SaveOkBody where
  success : Option Bool
  message : Option String
  articleId : Option String
  restored : Option Bool
deriving DecidableEq, Repr

/-- One outbound HTTP request as the dispatcher builds it: method, full
URL, the bearer token of the Authorization header, whether the JSON
Content-Type header is added, and the serialized body when present. -/
structure HttpRequest where
  method : String
  url : String
  authBearer : String
  contentTypeJson : Bool
  body : Option String
deriving DecidableEq, Repr

/-- A backend response as the dispatcher observes it: the status code,
the body as text (response.text), whether the body parses as JSON
(response.json resolves), and the tool-shaped views of the parsed body
(an absent field of the JSON object is none). -/
structure HttpResponse where
  status : Nat
  text : String
  jsonOk : Bool
  articles : Option (List Article)
  article : Option Article
  events : Option (List ArticleEvent)
  saveErr : SaveErrorBody
  saveOk : SaveOkBody
deriving Repr

/-- response.ok: status in the 2xx range. -/
def responseOk (status : Nat) : Bool :=
  200 ≤ status && status < 300

/-- Process-wide immutable configuration: backend base URL and the MCP
token, loaded once at startup. -/
structure Config where
  apiUrl : String
  token : String
deriving DecidableEq, Repr

/-- Lowercase hexadecimal digit for a value below 16. -/
def hexLower (n : Nat) : Char :=
  if n < 10 then Char.ofNat (48 + n) else Char.ofNat (87 + n)

/-- JSON.stringify escaping of one character inside a string literal. -/
def jsonEscapeChar (c : Char) : String :=
  if c = '"' then "\\\""
  else if c = '\\' then "\\\\"
  else if c = '\n' then "\\n"
  else if c = '\r' then "\\r"
  else if c = '\t' then "\\t"
  else if c.toNat = 8 then "\\b"
  else if c.toNat = 12 then "\\f"
  else if c.toNat < 32 then
    "\\u00" ++ String.singleton (hexLower (c.toNat / 16)) ++
      String.singleton (hexLower (c.toNat % 16))
  else String.singleton c

/-- JSON.stringify of a string value. -/
def jsonQuote (s : String) : String :=
  "\"" ++ String.join (s.toList.map jsonEscapeChar) ++ "\""

/-- JSON.stringify of a runtime value (NaN serializes as null). -/
def jsonStringifyVal : JSVal → String
  | .num n => toString n
  | .nan => "null"
  | .str s => jsonQuote s
  | .bool b => if b then "true" else "false"
  | .null => "null"

/-- The serialized save_article request body: the url key always, the
title and markdown keys only when the corresponding argument is present
and truthy, in insertion order (JSON.stringify of the requestBody object
the source builds field by field). -/
def saveBodyString (urlV : JSVal) (title markdown : Option JSVal) : String :=
  "\x7b\"url\":" ++ jsonStringifyVal urlV ++
    (if truthyOpt title then
      ",\"title\":" ++ jsonStringifyVal ((title).getD .null) else "") ++
    (if truthyOpt markdown then
      ",\"markdown\":" ++ jsonStringifyVal ((markdown).getD .null) else "") ++
    "\x7d"

/-- Stands for the runtime-specific message of the exception thrown when
response.json() rejects on a path without a local catch; the dispatcher
only embeds it into the generic catch-all text. -/
def jsonRejectText : String := "Unexpected token in JSON"

/-- Stands for the runtime-specific message of the TypeError thrown when
a property of an undefined article object is accessed. -/
def undefinedAccessText : String := "Cannot read properties of undefined"

/-- One numbered entry of a list_articles or search_articles result. -/
def renderArticleItem (index : Nat) (a : Article) : String :=
  "[" ++ toString (index + 1) ++ "] " ++ a.title ++ " (" ++
    toString a.reading_time_minutes ++ "分)\n    " ++ a.url ++
    "\n    タグ: " ++ String.intercalate ", " a.tags ++
    "\n    ID: " ++ a.id

/-- Interpretation of the backend response in the list_articles case
(the code after the fetch, verbatim). -/
def listInterp (resp : HttpResponse) : Except String String :=
  if !(responseOk resp.status) then
    .ok ("エラー (" ++ toString resp.status ++ "): " ++ resp.text)
  else if !resp.jsonOk then
    .error jsonRejectText
  else
    let articles := resp.articles.getD []
    if articles.length = 0 then
      .ok "未読記事がありません。"
    else
      let articlesList := articles.enum.map fun p => renderArticleItem p.1 p.2
      .ok ("未読記事一覧（" ++ toString articles.length ++
        "件）\n詳細が必要な場合は get_article で記事IDを指定してください。\n\n" ++
        String.intercalate "\n\n" articlesList)

/-- The list_articles case of the dispatcher switch.  Returns the inner
result (ok text, or a thrown exception message) together with the list
of HTTP requests issued. -/
def listArticlesCase (cfg : Config) (backend : HttpRequest → HttpResponse)
    (args : Args) : Except String String × List HttpRequest :=
  let limit := mathMin (jsOr (args.get "limit") (.num 20)).toNumber (.rat 50)
  let req : HttpRequest :=
    ⟨"GET", cfg.apiUrl ++ "/api/v1/articles?limit=" ++ limit.render,
      cfg.token, false, none⟩
  (listInterp (backend req), [req])

/-- Interpretation of the backend response in the search_articles case
(the code after the fetch, verbatim); queryStr is the interpolated query
and mode the defaulted mode value. -/
def searchInterp (queryStr : String) (mode : JSVal) (resp : HttpResponse) :
    Except String String :=
  if !(responseOk resp.status) then
    if resp.status = 503 ∧ mode = .str "semantic" then
      .ok "セマンティック検索は現在利用できません。キーワード検索をお試しください。"
    else
      .ok ("エラー (" ++ toString resp.status ++ "): " ++ resp.text)
  else if !resp.jsonOk then
    .error jsonRejectText
  else
    let searchResults := resp.articles.getD []
    if searchResults.length = 0 then
      .ok (if mode = .str "semantic" then
        "「" ++ queryStr ++ "」に関連する記事が見つかりませんでした。"
      else
        "「" ++ queryStr ++ "」に一致する記事が見つかりませんでした。")
    else
      let resultsList := searchResults.enum.map fun p => renderArticleItem p.1 p.2
      let modeLabel :=
        if mode = .str "semantic" then "セマンティック検索" else "キーワード検索"
      .ok (modeLabel ++ "結果：「" ++ queryStr ++ "」（" ++
        toString searchResults.length ++
        "件）\n詳細が必要な場合は get_article で記事IDを指定してください。\n\n" ++
        String.intercalate "\n\n" resultsList)

/-- The search_articles case of the dispatcher switch. -/
def searchArticlesCase (cfg : Config) (backend : HttpRequest → HttpResponse)
    (args : Args) : Except String String × List HttpRequest :=
  let query := args.get "query"
  let mode := jsOr (args.get "mode") (.str "semantic")
  let limit := mathMin (jsOr (args.get "limit") (.num 10)).toNumber (.rat 30)
  if !truthyOpt query then
    (.ok "エラー: 検索キーワードを指定してください", [])
  else
    let endpoint :=
      if mode = .str "semantic" then cfg.apiUrl ++ "/api/v1/articles/semantic-search"
      else cfg.apiUrl ++ "/api/v1/articles/search"
    let req : HttpRequest :=
      ⟨"GET", endpoint ++ "?q=" ++ encodeURIComponent (displayOpt query) ++
        "&limit=" ++ limit.render, cfg.token, false, none⟩
    (searchInterp (displayOpt query) mode (backend req), [req])

/-- The status label lookup of the get_article renderer. -/
def statusLabel (status : Option String) : String :=
  if status = some "read" then "既読"
  else if status = some "unread" then "未読"
  else if status = some "deferred" then "後回し"
  else "不明"

/-- The saved-date field of the get_article renderer: the localized date
when created_at is present and truthy, the unknown label otherwise.  The
locale-dependent formatting (new Date + toLocaleDateString) is the
function parameter fd, fixed per run. -/
def savedDateLabel (fd : String → String) (created_at : Option String) : String :=
  match created_at with
  | some s => if s ≠ "" then fd s else "不明"
  | none => "不明"

/-- One line of the event-history section (ft is the localized
timestamp formatting, fixed per run). -/
def renderEventLine (ft : String → String) (e : ArticleEvent) : String :=
  "- " ++ e.action ++ " (" ++ ft e.created_at ++ ")"

/-- The prefix of the get_article detail block, everything before the
event-history section. -/
def renderArticleHead (fd : String → String) (a : Article) : String :=
  "# " ++ a.title ++ "\n\n**URL**: " ++ a.url ++
    "\n**ステータス**: " ++ statusLabel a.status ++
    "\n**読了時間**: " ++ toString a.reading_time_minutes ++
    "分\n**タグ**: " ++ String.intercalate ", " a.tags ++
    "\n**コンテンツタイプ**: " ++ a.content_type ++
    "\n**保存日**: " ++ savedDateLabel fd a.created_at ++
    "\n\n**要約**:\n" ++ a.summary ++
    "\n\n**記事ID**: " ++ a.id ++
    "\n\n**イベント履歴**:\n"

/-- The full get_article detail block. -/
def renderArticleDetail (fd ft : String → String) (a : Article)
    (events : List ArticleEvent) : String :=
  renderArticleHead fd a ++
    String.intercalate "\n" (events.map (renderEventLine ft))

/-- The single request a get_article invocation issues for a rendered
article id. -/
def getArticleRequest (cfg : Config) (idStr : String) : HttpRequest :=
  ⟨"GET", cfg.apiUrl ++ "/api/v1/articles/" ++ idStr, cfg.token, false, none⟩

/-- Interpretation of the backend response in the get_article case (the
code after the fetch, verbatim); idStr is the interpolated article id. -/
def getInterp (fd ft : String → String) (idStr : String)
    (resp : HttpResponse) : Except String String :=
  if !(responseOk resp.status) then
    if resp.status = 404 then
      .ok ("記事が見つかりませんでした（ID: " ++ idStr ++ "）")
    else if resp.status = 403 then
      .ok "この記事へのアクセス権限がありません。"
    else
      .ok ("エラー (" ++ toString resp.status ++ "): " ++ resp.text)
  else if !resp.jsonOk then
    .error jsonRejectText
  else
    match resp.article with
    | none => .error undefinedAccessText
    | some article =>
      let events := resp.events.getD []
      .ok (renderArticleDetail fd ft article events)

/-- The get_article case of the dispatcher switch. -/
def getArticleCase (fd ft : String → String) (cfg : Config)
    (backend : HttpRequest → HttpResponse) (args : Args) :
    Except String String × List HttpRequest :=
  let articleId := args.get "article_id"
  if !truthyOpt articleId then
    (.ok "エラー: 記事IDを指定してください", [])
  else
    let idStr := displayOpt articleId
    let req := getArticleRequest cfg idStr
    (getInterp fd ft idStr (backend req), [req])

/-- Interpretation of the backend response in the update_article_status
case (the code after the fetch, verbatim); the action value selects the
confirmation sentence. -/
def updateInterp (action : Option JSVal) (idStr : String)
    (resp : HttpResponse) : Except String String :=
  if !(responseOk resp.status) then
    if resp.status = 404 then
      .ok ("記事が見つかりませんでした（ID: " ++ idStr ++ "）")
    else
      .ok ("エラー (" ++ toString resp.status ++ "): " ++ resp.text)
  else
    let message :=
      if action = some (.str "read") then "記事を既読にマークしました"
      else "記事を削除しました"
    .ok (message ++ "（ID: " ++ idStr ++ "）")

/-- The update_article_status case of the dispatcher switch. -/
def updateArticleStatusCase (cfg : Config)
    (backend : HttpRequest → HttpResponse) (args : Args) :
    Except String String × List HttpRequest :=
  let articleId := args.get "article_id"
  let action := args.get "action"
  if !truthyOpt articleId || !truthyOpt action then
    (.ok "エラー: 記事IDとアクションを指定してください", [])
  else if action ≠ some (.str "read") ∧ action ≠ some (.str "delete") then
    (.ok "エラー: アクションは \x27read\x27 または \x27delete\x27 のいずれかを指定してください", [])
  else
    let idStr := displayOpt articleId
    let url :=
      if action = some (.str "read") then
        cfg.apiUrl ++ "/api/v1/articles/" ++ idStr ++ "/read"
      else cfg.apiUrl ++ "/api/v1/articles/" ++ idStr
    let method := if action = some (.str "read") then "POST" else "DELETE"
    let req : HttpRequest := ⟨method, url, cfg.token, false, none⟩
    (updateInterp action idStr (backend req), [req])

/-- The string-or chain `a || b` for optional string fields of a parsed
body (an absent or empty string falls through to the default). -/
def jsOrStr (a : Option String) (b : String) : String :=
  match a with
  | some s => if s = "" then b else s
  | none => b

/-- Interpretation of the backend response in the save_article case
(the code after the fetch, verbatim); urlStr is the interpolated
submitted URL.  A body that fails to parse as JSON is replaced by the
unknown error object by the local catch of the error branch. -/
def saveInterp (urlStr : String) (resp : HttpResponse) :
    Except String String :=
  if !(responseOk resp.status) then
    let errorData :=
      if resp.jsonOk then resp.saveErr else ⟨some "unknown", none⟩
    if resp.status = 400 ∧ errorData.error = some "unread-limit" then
      .ok "エラー: 未読記事が30件に達しています。既存の記事を読むか削除してから保存してください。"
    else if resp.status = 400 ∧ errorData.error = some "limit-reached" then
      .ok "エラー: 今月の記事保存上限に達しました。"
    else if resp.status = 400 ∧ errorData.error = some "already-read" then
      .ok "この記事は既に読了済みです。"
    else if resp.status = 400 ∧ errorData.error = some "invalid-content" then
      .ok "エラー: このコンテンツは保存できません。"
    else
      .ok ("エラー (" ++ toString resp.status ++ "): " ++
        jsOrStr errorData.message
          (jsOrStr errorData.error "記事の保存に失敗しました"))
  else if !resp.jsonOk then
    .error jsonRejectText
  else
    let data := resp.saveOk
    let message :=
      if data.restored.getD false then "記事を再登録しました"
      else if data.message = some "記事は既に保存されています" then
        "記事は既に保存されています"
      else "記事を保存しました"
    .ok (message ++ "\n\nURL: " ++ urlStr ++ "\n記事ID: " ++
      data.articleId.getD "undefined")

/-- The save_article case of the dispatcher switch. -/
def saveArticleCase (cfg : Config) (backend : HttpRequest → HttpResponse)
    (args : Args) : Except String String × List HttpRequest :=
  let urlArg := args.get "url"
  let title := args.get "title"
  let markdown := args.get "markdown"
  if !truthyOpt urlArg then
    (.ok "エラー: URLを指定してください", [])
  else
    let urlStr := displayOpt urlArg
    let req : HttpRequest :=
      ⟨"POST", cfg.apiUrl ++ "/api/v1/articles", cfg.token, true,
        some (saveBodyString ((urlArg).getD .null) title markdown)⟩
    (saveInterp urlStr (backend req), [req])

/-- The full tool-call dispatcher: the switch over the tool name wrapped
in the try/catch that renders any thrown exception as the generic
failure text.  Returns the display text of the single text content
block together with the list of HTTP requests issued. -/
def handleToolCall (fd ft : String → String) (cfg : Config)
    (backend : HttpRequest → HttpResponse) (name : String) (args : Args) :
    String × List HttpRequest :=
  let r :=
    if name = "list_articles" then listArticlesCase cfg backend args
    else if name = "search_articles" then searchArticlesCase cfg backend args
    else if name = "get_article" then getArticleCase fd ft cfg backend args
    else if name = "update_article_status" then
      updateArticleStatusCase cfg backend args
    else if name = "save_article" then saveArticleCase cfg backend args
    else (.ok ("不明なツール: " ++ name), [])
  (match r.1 with
   | .ok t => t
   | .error m => "エラーが発生しました: " ++ m, r.2)

/-- Sample configuration used by concrete counterexamples and
witnesses. -/
def cfgEx : Config := ⟨"https://curaq.app", "tok"⟩

/-- A backend response with the given status and body text whose body
parses as the empty JSON object. -/
def mkResp (status : Nat) (text : String) : HttpResponse :=
  ⟨status, text, true, none, none, none, ⟨none, none⟩, ⟨none, none, none, none⟩⟩

/-- A backend double that returns the same response to every request. -/
def constBackend (r : HttpResponse) : HttpRequest → HttpResponse := fun _ => r

/-- A backend double used where the response does not matter. -/
def backendEx : HttpRequest → HttpResponse := constBackend (mkResp 200 "")

/-- A 400 response whose JSON error body carries the unread-limit
code. -/
def respUnread : HttpResponse :=
  ⟨400, "", true, none, none, none, ⟨some "unread-limit", none⟩,
    ⟨none, none, none, none⟩⟩

/-- A 500 response whose JSON error body carries only a message. -/
def respServerErr : HttpResponse :=
  ⟨500, "oops", true, none, none, none, ⟨none, some "boom"⟩,
    ⟨none, none, none, none⟩⟩

/-- A successful save_article response with restored true and an
arbitrary message. -/
def respRestored : HttpResponse :=
  ⟨200, "", true, none, none, none, ⟨none, none⟩,
    ⟨some true, some "anything", some "id123", some true⟩⟩

/-- A 503 response with a plain text body. -/
def resp503 : HttpResponse := mkResp 503 "Service Unavailable"

/-- A 404 response. -/
def respNotFound : HttpResponse := mkResp 404 "not found"

/-- A sample article. -/
def articleEx : Article :=
  ⟨"id1", "https://e.com/a", "Title", "Summary", ["tag1", "tag2"], 5,
    "article", none, some "2024-01-01T00:00:00Z", some "unread", none⟩

/-- A successful get_article response whose event history is empty. -/
def respArticle : HttpResponse :=
  ⟨200, "", true, none, some articleEx, some [], ⟨none, none⟩,
    ⟨none, none, none, none⟩⟩

/-- C1 (amended): with mode omitted the semantic endpoint is selected;
with mode keyword the keyword endpoint; and with any other non-empty
string the request goes to the KEYWORD endpoint (the source tests
strict equality with semantic, so every other truthy mode value selects
the keyword endpoint, not the semantic one as the original claim
states). -/
theorem C1_theorem (cfg : Config) (b : HttpRequest → HttpResponse)
    (fd ft : String → String) (q s : String) (hq : q ≠ "")
    (hs : s ≠ "semantic") (hs0 : s ≠ "") :
    (handleToolCall fd ft cfg b "search_articles" [("query", .str q)]).2.map
        HttpRequest.url =
      [cfg.apiUrl ++ "/api/v1/articles/semantic-search" ++ "?q=" ++
        encodeURIComponent q ++ "&limit=" ++ "10"] ∧
    (handleToolCall fd ft cfg b "search_articles"
        [("query", .str q), ("mode", .str "keyword")]).2.map HttpRequest.url =
      [cfg.apiUrl ++ "/api/v1/articles/search" ++ "?q=" ++
        encodeURIComponent q ++ "&limit=" ++ "10"] ∧
    (handleToolCall fd ft cfg b "search_articles"
        [("query", .str q), ("mode", .str s)]).2.map HttpRequest.url =
      [cfg.apiUrl ++ "/api/v1/articles/search" ++ "?q=" ++
        encodeURIComponent q ++ "&limit=" ++ "10"] := by
  refine ⟨?_, ?_, ?_⟩ <;>
    (simp [handleToolCall, searchArticlesCase, Args.get, truthyOpt,
      JSVal.truthy, jsOr, displayOpt, JSVal.toDisplayString, mathMin,
      JSVal.toNumber, JSNum.render, hq, hs, hs0]; try rfl)

/-- C1 counterexample: a search_articles invocation with the
unrecognized mode value fulltext issues its one request to the keyword
endpoint, not to the semantic-search endpoint the claim requires. -/
theorem C1_counterexample :
    (handleToolCall id id cfgEx backendEx "search_articles"
        [("query", JSVal.str "x"), ("mode", JSVal.str "fulltext")]).2.map
        HttpRequest.url =
      ["https://curaq.app/api/v1/articles/search?q=x&limit=10"] ∧
    ¬ (handleToolCall id id cfgEx backendEx "search_articles"
        [("query", JSVal.str "x"), ("mode", JSVal.str "fulltext")]).2.map
        HttpRequest.url =
      ["https://curaq.app/api/v1/articles/semantic-search?q=x&limit=10"] := by
  exact ⟨by rfl, by decide⟩

/-- C1 witness: the amended endpoint-selection theorem applied at the
concrete query x and the concrete unrecognized mode fulltext. -/
theorem C1_witness :
    (handleToolCall id id cfgEx backendEx "search_articles"
        [("query", JSVal.str "x"), ("mode", JSVal.str "fulltext")]).2.map
        HttpRequest.url =
      [cfgEx.apiUrl ++ "/api/v1/articles/search" ++ "?q=" ++
        encodeURIComponent "x" ++ "&limit=" ++ "10"] :=
  (C1_theorem cfgEx backendEx id id "x" "fulltext" (by decide) (by decide)
    (by decide)).2.2

/-- An integer-valued rational renders as the integer itself. -/
theorem ratRender_intCast (k : ℤ) : ratRender ((k : ℤ) : ℚ) = toString k := by
  simp [ratRender, Rat.den_intCast, Rat.num_intCast]

/-- C2 (amended): the limit parameter of list_articles is 20 when the
argument is absent; min(n, 50) when the argument is a nonzero number n
(so values in 1..50 pass through and larger values cap at 50, but a
negative number such as -5 is sent as-is, not replaced by 20); and a
truthy non-numeric string yields limit=NaN, not 20 (only falsy
arguments, such as 0 or the empty string, fall back to 20). -/
theorem C2_theorem (cfg : Config) (b : HttpRequest → HttpResponse)
    (fd ft : String → String) (n : Int) (hn : n ≠ 0)
    (_hrange : n.natAbs < 2 ^ 53) (s : String)
    (hs0 : s ≠ "") (hnan : stringToNumber s = .nan) :
    (handleToolCall fd ft cfg b "list_articles" []).2.map HttpRequest.url =
      [cfg.apiUrl ++ "/api/v1/articles?limit=" ++ "20"] ∧
    (handleToolCall fd ft cfg b "list_articles" [("limit", .num n)]).2.map
        HttpRequest.url =
      [cfg.apiUrl ++ "/api/v1/articles?limit=" ++ toString (min n 50)] ∧
    (handleToolCall fd ft cfg b "list_articles" [("limit", .str s)]).2.map
        HttpRequest.url =
      [cfg.apiUrl ++ "/api/v1/articles?limit=" ++ "NaN"] := by
  refine ⟨?_, ?_, ?_⟩
  · rfl
  · have hc : ((n : ℚ) ⊓ 50) = (((n ⊓ 50 : ℤ)) : ℚ) := by norm_cast
    simp [handleToolCall, listArticlesCase, Args.get, truthyOpt,
      JSVal.truthy, jsOr, mathMin, JSVal.toNumber, JSNum.render, hn]
    rw [hc, ratRender_intCast]
  · simp [handleToolCall, listArticlesCase, Args.get, truthyOpt,
      JSVal.truthy, jsOr, mathMin, JSVal.toNumber, JSNum.render,
      hs0, hnan]

/-- C2 counterexample: list_articles with limit -5 sends limit=-5 to the
backend, not limit=20 as the claim requires for a negative argument. -/
theorem C2_counterexample :
    (handleToolCall id id cfgEx backendEx "list_articles"
        [("limit", JSVal.num (-5))]).2.map HttpRequest.url =
      ["https://curaq.app/api/v1/articles?limit=-5"] ∧
    ¬ (handleToolCall id id cfgEx backendEx "list_articles"
        [("limit", JSVal.num (-5))]).2.map HttpRequest.url =
      ["https://curaq.app/api/v1/articles?limit=20"] := by
  exact ⟨by rfl, by decide⟩

/-- C2 witness: the amended limit theorem applied at the concrete
arguments 999 (capped to 50) and the non-numeric string abc (NaN). -/
theorem C2_witness :
    (handleToolCall id id cfgEx backendEx "list_articles"
        [("limit", JSVal.num 999)]).2.map HttpRequest.url =
      [cfgEx.apiUrl ++ "/api/v1/articles?limit=" ++
        toString (min (999 : Int) 50)] ∧
    (handleToolCall id id cfgEx backendEx "list_articles"
        [("limit", JSVal.str "abc")]).2.map HttpRequest.url =
      [cfgEx.apiUrl ++ "/api/v1/articles?limit=" ++ "NaN"] :=
  ⟨(C2_theorem cfgEx backendEx id id 999 (by decide) (by decide) "abc"
      (by decide) (by decide)).2.1,
   (C2_theorem cfgEx backendEx id id 999 (by decide) (by decide) "abc"
      (by decide) (by decide)).2.2⟩

/-- C3: for each tool, an invocation with a missing (falsy) required
argument, or with an action outside read/delete, returns the
corresponding validation text with an empty request log — the backend
function is arbitrary and is never consulted — and the result is an
ordinary text value, never a protocol-level error. -/
theorem C3_theorem (cfg : Config) (b : HttpRequest → HttpResponse)
    (fd ft : String → String) (a1 a2 a3 a4 a5 : Args)
    (h1 : truthyOpt (a1.get "query") = false)
    (h2 : truthyOpt (a2.get "article_id") = false)
    (h3 : truthyOpt (a3.get "article_id") = false ∨
      truthyOpt (a3.get "action") = false)
    (h4a : truthyOpt (a4.get "article_id") = true)
    (h4b : truthyOpt (a4.get "action") = true)
    (h4c : a4.get "action" ≠ some (.str "read") ∧
      a4.get "action" ≠ some (.str "delete"))
    (h5 : truthyOpt (a5.get "url") = false) :
    handleToolCall fd ft cfg b "search_articles" a1 =
      ("エラー: 検索キーワードを指定してください", []) ∧
    handleToolCall fd ft cfg b "get_article" a2 =
      ("エラー: 記事IDを指定してください", []) ∧
    handleToolCall fd ft cfg b "update_article_status" a3 =
      ("エラー: 記事IDとアクションを指定してください", []) ∧
    handleToolCall fd ft cfg b "update_article_status" a4 =
      ("エラー: アクションは \x27read\x27 または \x27delete\x27 のいずれかを指定してください", []) ∧
    handleToolCall fd ft cfg b "save_article" a5 =
      ("エラー: URLを指定してください", []) := by
  refine ⟨?_, ?_, ?_, ?_, ?_⟩
  · simp [handleToolCall, searchArticlesCase, h1]
  · simp [handleToolCall, getArticleCase, h2]
  · rcases h3 with h | h <;> simp [handleToolCall, updateArticleStatusCase, h]
  · simp [handleToolCall, updateArticleStatusCase, h4a, h4b, h4c.1, h4c.2]
  · simp [handleToolCall, saveArticleCase, h5]

/-- C3 witness: the validation theorem applied at concrete invalid
argument bags for all five checks (absent query, empty article id,
missing action, the unrecognized action archive, boolean-false url). -/
theorem C3_witness :
    handleToolCall id id cfgEx backendEx "search_articles" [] =
      ("エラー: 検索キーワードを指定してください", []) ∧
    handleToolCall id id cfgEx backendEx "get_article"
        [("article_id", JSVal.str "")] =
      ("エラー: 記事IDを指定してください", []) ∧
    handleToolCall id id cfgEx backendEx "update_article_status"
        [("article_id", JSVal.str "abc")] =
      ("エラー: 記事IDとアクションを指定してください", []) ∧
    handleToolCall id id cfgEx backendEx "update_article_status"
        [("article_id", JSVal.str "abc"), ("action", JSVal.str "archive")] =
      ("エラー: アクションは \x27read\x27 または \x27delete\x27 のいずれかを指定してください", []) ∧
    handleToolCall id id cfgEx backendEx "save_article"
        [("url", JSVal.bool false)] =
      ("エラー: URLを指定してください", []) :=
  C3_theorem cfgEx backendEx id id []
    [("article_id", JSVal.str "")] [("article_id", JSVal.str "abc")]
    [("article_id", JSVal.str "abc"), ("action", JSVal.str "archive")]
    [("url", JSVal.bool false)]
    (by decide) (by decide) (Or.inr (by decide)) (by decide) (by decide)
    (by decide) (by decide)

/-- C9: invoking any tool name outside the five registered ones returns
the unknown-tool text naming it, with an empty request log and an
ordinary text result. -/
theorem C9_theorem (fd ft : String → String) (cfg : Config)
    (b : HttpRequest → HttpResponse) (name : String) (args : Args)
    (h1 : name ≠ "list_articles") (h2 : name ≠ "search_articles")
    (h3 : name ≠ "get_article") (h4 : name ≠ "update_article_status")
    (h5 : name ≠ "save_article") :
    handleToolCall fd ft cfg b name args = ("不明なツール: " ++ name, []) := by
  simp [handleToolCall, h1, h2, h3, h4, h5]

/-- C9 witness: the unknown-tool theorem applied at the concrete tool
name delete_everything. -/
theorem C9_witness :
    handleToolCall id id cfgEx backendEx "delete_everything" [] =
      ("不明なツール: " ++ "delete_everything", []) :=
  C9_theorem id id cfgEx backendEx "delete_everything" []
    (by decide) (by decide) (by decide) (by decide) (by decide)

/-- C4: a save_article invocation answered with status 400 maps the
error code of the JSON body to the four canonical messages for the
codes unread-limit, limit-reached, already-read and invalid-content;
any other code at 400, and any non-2xx status other than 400, yields
the generic formatter output (status plus the extracted message or
error field, with a fixed fallback sentence). -/
theorem C4_theorem (cfg : Config) (fd ft : String → String) (u : String)
    (hu : u ≠ "") (resp : HttpResponse) (hjson : resp.jsonOk = true) :
    (resp.status = 400 →
      ((resp.saveErr.error = some "unread-limit" →
        (handleToolCall fd ft cfg (constBackend resp) "save_article"
            [("url", .str u)]).1 =
          "エラー: 未読記事が30件に達しています。既存の記事を読むか削除してから保存してください。") ∧
       (resp.saveErr.error = some "limit-reached" →
        (handleToolCall fd ft cfg (constBackend resp) "save_article"
            [("url", .str u)]).1 = "エラー: 今月の記事保存上限に達しました。") ∧
       (resp.saveErr.error = some "already-read" →
        (handleToolCall fd ft cfg (constBackend resp) "save_article"
            [("url", .str u)]).1 = "この記事は既に読了済みです。") ∧
       (resp.saveErr.error = some "invalid-content" →
        (handleToolCall fd ft cfg (constBackend resp) "save_article"
            [("url", .str u)]).1 = "エラー: このコンテンツは保存できません。") ∧
       (resp.saveErr.error ≠ some "unread-limit" →
        resp.saveErr.error ≠ some "limit-reached" →
        resp.saveErr.error ≠ some "already-read" →
        resp.saveErr.error ≠ some "invalid-content" →
        (handleToolCall fd ft cfg (constBackend resp) "save_article"
            [("url", .str u)]).1 =
          "エラー (400): " ++ jsOrStr resp.saveErr.message
            (jsOrStr resp.saveErr.error "記事の保存に失敗しました")))) ∧
    (responseOk resp.status = false → resp.status ≠ 400 →
      (handleToolCall fd ft cfg (constBackend resp) "save_article"
          [("url", .str u)]).1 =
        "エラー (" ++ toString resp.status ++ "): " ++
          jsOrStr resp.saveErr.message
            (jsOrStr resp.saveErr.error "記事の保存に失敗しました")) := by
  constructor
  · intro h400
    refine ⟨?_, ?_, ?_, ?_, ?_⟩
    · intro he
      simp [handleToolCall, saveArticleCase, saveInterp, Args.get, truthyOpt,
        JSVal.truthy, displayOpt, JSVal.toDisplayString, constBackend,
        responseOk, hu, hjson, h400, he]
    · intro he
      simp [handleToolCall, saveArticleCase, saveInterp, Args.get, truthyOpt,
        JSVal.truthy, displayOpt, JSVal.toDisplayString, constBackend,
        responseOk, hu, hjson, h400, he]
    · intro he
      simp [handleToolCall, saveArticleCase, saveInterp, Args.get, truthyOpt,
        JSVal.truthy, displayOpt, JSVal.toDisplayString, constBackend,
        responseOk, hu, hjson, h400, he]
    · intro he
      simp [handleToolCall, saveArticleCase, saveInterp, Args.get, truthyOpt,
        JSVal.truthy, displayOpt, JSVal.toDisplayString, constBackend,
        responseOk, hu, hjson, h400, he]
    · intro h1 h2 h3 h4
      simp [handleToolCall, saveArticleCase, saveInterp, Args.get, truthyOpt,
        JSVal.truthy, displayOpt, JSVal.toDisplayString, constBackend,
        responseOk, hu, hjson, h400, h1, h2, h3, h4]
      rfl
  · intro hok h400
    simp [handleToolCall, saveArticleCase, saveInterp, Args.get, truthyOpt,
      JSVal.truthy, displayOpt, JSVal.toDisplayString, constBackend,
      hok, hu, hjson, h400]

/-- C4 witness: the 400 error-mapping theorem applied at a concrete
unread-limit body and at a concrete 500 response with a message
field. -/
theorem C4_witness :
    (handleToolCall id id cfgEx (constBackend respUnread) "save_article"
        [("url", JSVal.str "https://e.com/a")]).1 =
      "エラー: 未読記事が30件に達しています。既存の記事を読むか削除してから保存してください。" ∧
    (handleToolCall id id cfgEx (constBackend respServerErr) "save_article"
        [("url", JSVal.str "https://e.com/a")]).1 =
      "エラー (" ++ toString respServerErr.status ++ "): " ++
        jsOrStr respServerErr.saveErr.message
          (jsOrStr respServerErr.saveErr.error "記事の保存に失敗しました") :=
  ⟨((C4_theorem cfgEx id id "https://e.com/a" (by decide) respUnread
      rfl).1 rfl).1 rfl,
   (C4_theorem cfgEx id id "https://e.com/a" (by decide) respServerErr
      rfl).2 rfl (by decide)⟩

/-- C5: a successful save_article response selects the rendered message
by priority — restored true gives the re-registered sentence whatever
the message field holds; otherwise the canonical already-saved message
is passed through when the body carries exactly it; otherwise the
generic saved sentence — and in all three cases the submitted URL and
returned articleId are appended. -/
theorem C5_theorem (cfg : Config) (fd ft : String → String) (u : String)
    (hu : u ≠ "") (resp : HttpResponse) (hok : responseOk resp.status = true)
    (hjson : resp.jsonOk = true) :
    (resp.saveOk.restored.getD false = true →
      (handleToolCall fd ft cfg (constBackend resp) "save_article"
          [("url", .str u)]).1 =
        "記事を再登録しました" ++ "\n\nURL: " ++ u ++ "\n記事ID: " ++
          resp.saveOk.articleId.getD "undefined") ∧
    (resp.saveOk.restored.getD false = false →
      resp.saveOk.message = some "記事は既に保存されています" →
      (handleToolCall fd ft cfg (constBackend resp) "save_article"
          [("url", .str u)]).1 =
        "記事は既に保存されています" ++ "\n\nURL: " ++ u ++ "\n記事ID: " ++
          resp.saveOk.articleId.getD "undefined") ∧
    (resp.saveOk.restored.getD false = false →
      resp.saveOk.message ≠ some "記事は既に保存されています" →
      (handleToolCall fd ft cfg (constBackend resp) "save_article"
          [("url", .str u)]).1 =
        "記事を保存しました" ++ "\n\nURL: " ++ u ++ "\n記事ID: " ++
          resp.saveOk.articleId.getD "undefined") := by
  refine ⟨?_, ?_, ?_⟩
  · intro hr
    simp [handleToolCall, saveArticleCase, saveInterp, Args.get, truthyOpt,
      JSVal.truthy, displayOpt, JSVal.toDisplayString, constBackend,
      hu, hok, hjson, hr]
  · intro hr hm
    simp [handleToolCall, saveArticleCase, saveInterp, Args.get, truthyOpt,
      JSVal.truthy, displayOpt, JSVal.toDisplayString, constBackend,
      hu, hok, hjson, hr, hm]
  · intro hr hm
    simp [handleToolCall, saveArticleCase, saveInterp, Args.get, truthyOpt,
      JSVal.truthy, displayOpt, JSVal.toDisplayString, constBackend,
      hu, hok, hjson, hr, hm]

/-- C5 witness: the success-message theorem applied at a concrete
restored response whose message field is an arbitrary other string. -/
theorem C5_witness :
    (handleToolCall id id cfgEx (constBackend respRestored) "save_article"
        [("url", JSVal.str "https://e.com/a")]).1 =
      "記事を再登録しました" ++ "\n\nURL: " ++ "https://e.com/a" ++
        "\n記事ID: " ++ respRestored.saveOk.articleId.getD "undefined" :=
  ((C5_theorem cfgEx id id "https://e.com/a" (by decide) respRestored
    rfl rfl).1 rfl)

/-- C6: a 503 answer to a search_articles call renders the semantic
fallback suggestion when the effective mode is semantic (omitted or
given), and the generic status-plus-body error when the mode is
keyword. -/
theorem C6_theorem (cfg : Config) (fd ft : String → String) (q : String)
    (hq : q ≠ "") (resp : HttpResponse) (h503 : resp.status = 503) :
    (handleToolCall fd ft cfg (constBackend resp) "search_articles"
        [("query", .str q)]).1 =
      "セマンティック検索は現在利用できません。キーワード検索をお試しください。" ∧
    (handleToolCall fd ft cfg (constBackend resp) "search_articles"
        [("query", .str q), ("mode", .str "semantic")]).1 =
      "セマンティック検索は現在利用できません。キーワード検索をお試しください。" ∧
    (handleToolCall fd ft cfg (constBackend resp) "search_articles"
        [("query", .str q), ("mode", .str "keyword")]).1 =
      "エラー (503): " ++ resp.text := by
  refine ⟨?_, ?_, ?_⟩ <;>
    (simp [handleToolCall, searchArticlesCase, searchInterp, Args.get,
      truthyOpt, JSVal.truthy, jsOr, displayOpt, JSVal.toDisplayString,
      constBackend, responseOk, hq, h503]; try rfl)

/-- C6 witness: the 503 theorem applied at the concrete query x and a
concrete 503 response, for the omitted-mode and keyword-mode calls. -/
theorem C6_witness :
    (handleToolCall id id cfgEx (constBackend resp503) "search_articles"
        [("query", JSVal.str "x")]).1 =
      "セマンティック検索は現在利用できません。キーワード検索をお試しください。" ∧
    (handleToolCall id id cfgEx (constBackend resp503) "search_articles"
        [("query", JSVal.str "x"), ("mode", JSVal.str "keyword")]).1 =
      "エラー (503): " ++ resp503.text :=
  ⟨(C6_theorem cfgEx id id "x" (by decide) resp503 rfl).1,
   (C6_theorem cfgEx id id "x" (by decide) resp503 rfl).2.2⟩

/-- C7: get_article renders a not-found message containing the
requested id on 404, the distinct permission-denied message on 403, and
on 200 with an absent or empty events array it still renders the full
detail block whose event-history section header is present with an
empty body (the text is the head block, which ends in the section
header, followed by the empty string). -/
theorem C7_theorem (cfg : Config) (fd ft : String → String) (idv : String)
    (hid : idv ≠ "") (resp : HttpResponse) (a : Article) :
    (resp.status = 404 →
      (handleToolCall fd ft cfg (constBackend resp) "get_article"
          [("article_id", .str idv)]).1 =
        "記事が見つかりませんでした（ID: " ++ idv ++ "）") ∧
    (resp.status = 403 →
      (handleToolCall fd ft cfg (constBackend resp) "get_article"
          [("article_id", .str idv)]).1 =
        "この記事へのアクセス権限がありません。") ∧
    (resp.status = 200 → resp.jsonOk = true → resp.article = some a →
      (resp.events = none ∨ resp.events = some []) →
      (handleToolCall fd ft cfg (constBackend resp) "get_article"
          [("article_id", .str idv)]).1 = renderArticleDetail fd ft a [] ∧
      renderArticleDetail fd ft a [] = renderArticleHead fd a ++ "") := by
  refine ⟨?_, ?_, ?_⟩
  · intro h404
    simp [handleToolCall, getArticleCase, getInterp, Args.get, truthyOpt,
      JSVal.truthy, displayOpt, JSVal.toDisplayString, constBackend,
      responseOk, hid, h404]
  · intro h403
    simp [handleToolCall, getArticleCase, getInterp, Args.get, truthyOpt,
      JSVal.truthy, displayOpt, JSVal.toDisplayString, constBackend,
      responseOk, hid, h403]
  · intro h200 hjson hart hev
    constructor
    · rcases hev with h | h <;>
        simp [handleToolCall, getArticleCase, getInterp, Args.get, truthyOpt,
          JSVal.truthy, displayOpt, JSVal.toDisplayString, constBackend,
          responseOk, hid, h200, hjson, hart, h]
    · have hi : String.intercalate "\n"
          (([] : List ArticleEvent).map (renderEventLine ft)) = "" := rfl
      have hi2 : ("\n".intercalate ([] : List String)) = "" := rfl
      simp [renderArticleDetail, hi, hi2]

/-- C7 witness: the get_article theorem applied at a concrete 404
response and at a concrete 200 response whose events array is empty. -/
theorem C7_witness :
    (handleToolCall id id cfgEx (constBackend respNotFound) "get_article"
        [("article_id", JSVal.str "abc")]).1 =
      "記事が見つかりませんでした（ID: " ++ "abc" ++ "）" ∧
    (handleToolCall id id cfgEx (constBackend respArticle) "get_article"
        [("article_id", JSVal.str "id1")]).1 =
      renderArticleDetail id id articleEx [] ∧
    renderArticleDetail id id articleEx [] =
      renderArticleHead id articleEx ++ "" :=
  ⟨(C7_theorem cfgEx id id "abc" (by decide) respNotFound articleEx).1 rfl,
   ((C7_theorem cfgEx id id "id1" (by decide) respArticle articleEx).2.2
     rfl rfl rfl (Or.inr rfl)).1,
   ((C7_theorem cfgEx id id "id1" (by decide) respArticle articleEx).2.2
     rfl rfl rfl (Or.inr rfl)).2⟩

/-- C8: the get_article result is a pure function of the response to
the one request the invocation issues (with the locale formatters fixed
per run): two invocations with the same article_id whose backends
answer that request identically render character-identical text. -/
theorem C8_theorem (fd ft : String → String) (cfg : Config)
    (b1 b2 : HttpRequest → HttpResponse) (args : Args)
    (h : b1 (getArticleRequest cfg (displayOpt (args.get "article_id"))) =
         b2 (getArticleRequest cfg (displayOpt (args.get "article_id")))) :
    handleToolCall fd ft cfg b1 "get_article" args =
      handleToolCall fd ft cfg b2 "get_article" args := by
  by_cases ht : truthyOpt (args.get "article_id") <;>
    simp [handleToolCall, getArticleCase, ht, h]

/-- C8 witness: the determinism theorem applied at a concrete id and
two backend doubles that agree on the get request. -/
theorem C8_witness :
    handleToolCall id id cfgEx backendEx "get_article"
        [("article_id", JSVal.str "id1")] =
      handleToolCall id id cfgEx (constBackend (mkResp 200 ""))
        "get_article" [("article_id", JSVal.str "id1")] :=
  C8_theorem id id cfgEx backendEx (constBackend (mkResp 200 ""))
    [("article_id", JSVal.str "id1")] rfl

/-- C10: a save_article invocation whose title or markdown argument is
falsy (the empty string, 0, false, null or NaN) builds the same request
and result as one omitting them, and the serialized JSON body contains
only the url key. -/
theorem C10_theorem (cfg : Config) (b : HttpRequest → HttpResponse)
    (fd ft : String → String) (u : String) (hu : u ≠ "")
    (tv mv : JSVal) (htv : tv.truthy = false) (hmv : mv.truthy = false) :
    handleToolCall fd ft cfg b "save_article"
        [("url", .str u), ("title", tv), ("markdown", mv)] =
      handleToolCall fd ft cfg b "save_article" [("url", .str u)] ∧
    (handleToolCall fd ft cfg b "save_article"
        [("url", .str u), ("title", tv), ("markdown", mv)]).2.map
        HttpRequest.body =
      [some ("\x7b\"url\":" ++ jsonQuote u ++ "\x7d")] := by
  have hu2 : truthyOpt (some (.str u)) = true := by
    simp [truthyOpt, JSVal.truthy, hu]
  constructor
  · simp [handleToolCall, saveArticleCase, saveBodyString, Args.get,
      displayOpt, JSVal.toDisplayString, truthyOpt, hu2, htv, hmv]
  · have hu3 : (JSVal.str u).truthy = true := by simp [JSVal.truthy, hu]
    simp [handleToolCall, saveArticleCase, saveBodyString, Args.get,
      displayOpt, JSVal.toDisplayString, jsonStringifyVal, truthyOpt,
      hu3, htv, hmv]

/-- C10 witness: the body-omission theorem applied at a concrete URL
with explicitly empty title and markdown arguments. -/
theorem C10_witness :
    handleToolCall id id cfgEx backendEx "save_article"
        [("url", JSVal.str "https://e.com/a"), ("title", JSVal.str ""),
          ("markdown", JSVal.str "")] =
      handleToolCall id id cfgEx backendEx "save_article"
        [("url", JSVal.str "https://e.com/a")] ∧
    (handleToolCall id id cfgEx backendEx "save_article"
        [("url", JSVal.str "https://e.com/a"), ("title", JSVal.str ""),
          ("markdown", JSVal.str "")]).2.map HttpRequest.body =
      [some ("\x7b\"url\":" ++ jsonQuote "https://e.com/a" ++ "\x7d")] :=
  C10_theorem cfgEx backendEx id id "https://e.com/a" (by decide)
    (JSVal.str "") (JSVal.str "") (by decide) (by decide)

end CuraQ
